import Mathlib

/-!
Verification of the GPIO worker/supervisor system
(repository: raspberry-pi-chatgpt-server).

The development shallowly embeds the Python sources:

* `freenove_projects_board.py` — the pin controller (`GPIOController`):
  pin validation, state-token parsing, pin setup, set/read operations,
  and the status query.
* `simple_gpio_server.py` — the line-transport worker: readiness line,
  per-line JSON dispatch, parse-error handling.
* `mcp_client.py` / `mcp_client_fixed.py` / `simple_gpio_client.py` —
  the supervisor clients: request/response matching, readiness wait,
  stop idempotence.

The hardware library (RPi.GPIO) and the JSON library are external to the
repository; they are modelled by an explicit `Hardware` record of
success/failure outcomes and by already-parsed line values.  Every pure
function is translated directly from the corresponding Python body and
is executable, so theorems can be checked on concrete inputs.
-/

namespace GpioRepo

deriving instance DecidableEq for Except

/-! ## Python string primitives

`str.lower` and `str.strip` as used by `GPIOController._parse_state`
(freenove_projects_board.py:209).  Only ASCII letters occur in the
accepted tokens, so per-character lowering matches Python there. -/

/-- Python `str.lower` (per-character ASCII lowering). -/
def py_lower (s : String) : String := ⟨s.data.map Char.toLower⟩

/-- Python `str.strip`: drop leading and trailing whitespace. -/
def py_strip (s : String) : String :=
  ⟨((s.data.dropWhile Char.isWhitespace).reverse.dropWhile Char.isWhitespace).reverse⟩

/-- Python `needle in hay` on strings (substring test). -/
def py_contains (needle hay : String) : Bool :=
  decide (needle.data <:+: hay.data)

/-! ## GPIOController state and the hardware model

`GPIOController.__init__` (freenove_projects_board.py:32-35) holds two
fields: `self.initialized` and `self.active_pins` (a set of ints; there
is no per-pin mode or level stored anywhere in the class). -/

/-- The mutable state of `GPIOController`: `initialized` and
`active_pins` (freenove_projects_board.py:34-35). -/
structure CtrlState where
  initialized : Bool
  active_pins : Finset Int
deriving DecidableEq

/-- Fresh controller, as built by `GPIOController.__init__`. -/
def initial_state : CtrlState := { initialized := false, active_pins := ∅ }

/-- A call into the RPi.GPIO library, recorded as a trace event so that
theorems can speak about which hardware operations a code path performs. -/
inductive HwCall
  | setmode
  | setup (pin : Int) (mode : String)
  | output (pin : Int) (level : Bool)
  | input (pin : Int)
deriving DecidableEq, Repr

/-- Outcome model of the RPi.GPIO library: whether each call succeeds
(`GPIO.setmode`, `GPIO.setup`, `GPIO.output`) and what `GPIO.input`
returns (`none` models the call raising). -/
structure Hardware where
  setmode_ok : Bool
  setup_ok : Int → String → Bool
  output_ok : Int → Bool
  input_val : Int → Option Bool

/-- Hardware on which every call succeeds and every input reads HIGH. -/
def hwOk : Hardware :=
  { setmode_ok := true
    setup_ok := fun _ _ => true
    output_ok := fun _ => true
    input_val := fun _ => some true }

/-! ## GPIOController operations -/

/-- `GPIOController._is_valid_pin` (freenove_projects_board.py:186-198):
the 17-entry allow-list. -/
def valid_pins : List Int := [4, 5, 6, 12, 13, 16, 17, 18, 19, 20, 21, 22, 23, 24, 25, 26, 27]

/-- `return pin in valid_pins` (freenove_projects_board.py:198). -/
def is_valid_pin (pin : Int) : Bool := decide (pin ∈ valid_pins)

/-- `GPIOController._parse_state` (freenove_projects_board.py:200-216):
`state.lower().strip()`, then membership in the alias lists. -/
def parse_state (state : String) : Option Bool :=
  let s := py_strip (py_lower state)
  if s ∈ (["high", "on", "1", "true"] : List String) then some true
  else if s ∈ (["low", "off", "0", "false"] : List String) then some false
  else none

/-- `GPIOController.initialize_gpio` (freenove_projects_board.py:37-46):
`GPIO.setmode(GPIO.BCM)`; on library failure the exception propagates
(the method re-raises), modelled by `Except.error`. -/
def initialize_gpio (hw : Hardware) (s : CtrlState) :
    Except String (CtrlState × List HwCall) :=
  if hw.setmode_ok then Except.ok ({ s with initialized := true }, [HwCall.setmode])
  else Except.error "Failed to initialize GPIO"

/-- `GPIOController.setup_pin` (freenove_projects_board.py:48-76).
Initializes GPIO first when needed (an exception there propagates);
then `GPIO.setup` adds the pin to `active_pins` on success and the
method returns `False` on a caught library failure or a bad mode. -/
def setup_pin (hw : Hardware) (s : CtrlState) (pin : Int) (mode : String) :
    Except String (Bool × CtrlState × List HwCall) :=
  match (if s.initialized then Except.ok (s, ([] : List HwCall)) else initialize_gpio hw s) with
  | Except.error e => Except.error e
  | Except.ok (s1, t1) =>
    if py_lower mode = "output" then
      if hw.setup_ok pin "output" then
        Except.ok (true, { s1 with active_pins := insert pin s1.active_pins },
                   t1 ++ [HwCall.setup pin "output"])
      else Except.ok (false, s1, t1 ++ [HwCall.setup pin "output"])
    else if py_lower mode = "input" then
      if hw.setup_ok pin "input" then
        Except.ok (true, { s1 with active_pins := insert pin s1.active_pins },
                   t1 ++ [HwCall.setup pin "input"])
      else Except.ok (false, s1, t1 ++ [HwCall.setup pin "input"])
    else Except.ok (false, s1, t1)

/-- The result dictionary returned by `set_gpio_output` and
`read_gpio_input`; absent keys are modelled by `none`. -/
structure GpioResult where
  success : Bool
  message : String
  pin : Int
  state : Option String
  gpio_value : Option Bool
deriving DecidableEq, Repr

/-- Message of the invalid-pin failure of `set_gpio_output`
(freenove_projects_board.py:92). -/
def invalid_pin_msg_set (pin : Int) : String :=
  "Invalid pin number: " ++ toString pin ++ ". Valid pins are 2-27 (excluding 3, 5, 8, 10)"

/-- Message of the invalid-pin failure of `read_gpio_input`
(freenove_projects_board.py:153). -/
def invalid_pin_msg_read (pin : Int) : String :=
  "Invalid pin number: " ++ toString pin

/-- Message of the invalid-state failure (freenove_projects_board.py:113). -/
def invalid_state_msg (state : String) : String :=
  "Invalid state: " ++ state ++
    ". Use \x27high\x27, \x27low\x27, \x27on\x27, \x27off\x27, \x271\x27, or \x270\x27"

/-- The success dictionary of `set_gpio_output`
(freenove_projects_board.py:124-130). -/
def set_success_result (pin : Int) (b : Bool) : GpioResult :=
  { success := true
    message := "GPIO pin " ++ toString pin ++ " successfully set to " ++
      (if b then "HIGH" else "LOW")
    pin := pin
    state := some (if b then "HIGH" else "LOW")
    gpio_value := some b }

/-- `GPIOController.set_gpio_output` (freenove_projects_board.py:78-139).
Order of the body: pin validation, then setup when the pin is not yet in
`active_pins`, then state parsing, then `GPIO.output`.  A library
exception from `GPIO.output` is caught (its text is abstracted to
"hardware fault"). -/
def set_gpio_output (hw : Hardware) (s : CtrlState) (pin : Int) (state : String) :
    Except String (GpioResult × CtrlState × List HwCall) :=
  if ¬ is_valid_pin pin then
    Except.ok ({ success := false, message := invalid_pin_msg_set pin, pin := pin,
                 state := some state, gpio_value := none }, s, [])
  else
    match (if pin ∈ s.active_pins then Except.ok (true, s, ([] : List HwCall))
           else setup_pin hw s pin "output") with
    | Except.error e => Except.error e
    | Except.ok (ok, s1, t1) =>
      if ¬ ok then
        Except.ok ({ success := false,
                     message := "Failed to setup pin " ++ toString pin ++ " as output",
                     pin := pin, state := some state, gpio_value := none }, s1, t1)
      else
        match parse_state state with
        | none =>
          Except.ok ({ success := false, message := invalid_state_msg state, pin := pin,
                       state := some state, gpio_value := none }, s1, t1)
        | some b =>
          if hw.output_ok pin then
            Except.ok (set_success_result pin b, s1, t1 ++ [HwCall.output pin b])
          else
            Except.ok ({ success := false,
                         message := "Error setting GPIO pin " ++ toString pin ++ ": hardware fault",
                         pin := pin, state := some state, gpio_value := none },
                       s1, t1 ++ [HwCall.output pin b])

/-- `GPIOController.read_gpio_input` (freenove_projects_board.py:141-184).
Pin validation, setup as input when unclaimed, then `GPIO.input`
(whose exception is caught, text abstracted). -/
def read_gpio_input (hw : Hardware) (s : CtrlState) (pin : Int) :
    Except String (GpioResult × CtrlState × List HwCall) :=
  if ¬ is_valid_pin pin then
    Except.ok ({ success := false, message := invalid_pin_msg_read pin, pin := pin,
                 state := none, gpio_value := none }, s, [])
  else
    match (if pin ∈ s.active_pins then Except.ok (true, s, ([] : List HwCall))
           else setup_pin hw s pin "input") with
    | Except.error e => Except.error e
    | Except.ok (ok, s1, t1) =>
      if ¬ ok then
        Except.ok ({ success := false,
                     message := "Failed to setup pin " ++ toString pin ++ " as input",
                     pin := pin, state := none, gpio_value := none }, s1, t1)
      else
        match hw.input_val pin with
        | some lv =>
          Except.ok ({ success := true,
                       message := "GPIO pin " ++ toString pin ++ " is " ++
                         (if lv then "HIGH" else "LOW"),
                       pin := pin, state := some (if lv then "HIGH" else "LOW"),
                       gpio_value := some lv }, s1, t1 ++ [HwCall.input pin])
        | none =>
          Except.ok ({ success := false,
                       message := "Error reading GPIO pin " ++ toString pin ++ ": hardware fault",
                       pin := pin, state := none, gpio_value := none },
                     s1, t1 ++ [HwCall.input pin])

/-- The dictionary returned by `GPIOController.get_pin_status`
(freenove_projects_board.py:218-230).  Python returns
`list(self.active_pins)`; the set abstraction keeps the unordered
content, which is what the list of a Python set carries. -/
structure PinStatus where
  initialized : Bool
  active_pins : Finset Int
  pin_count : Nat
deriving DecidableEq

/-- `GPIOController.get_pin_status`: the method body only reads
`self.initialized` and `self.active_pins` and performs no assignment,
so it is a pure function of the state; the unchanged state is returned
alongside the status. -/
def get_pin_status (s : CtrlState) : PinStatus × CtrlState :=
  ({ initialized := s.initialized, active_pins := s.active_pins,
     pin_count := s.active_pins.card }, s)

/-- A set/read operation issued against the controller, used to state
properties about arbitrary operation sequences. -/
inductive PinOp
  | set (pin : Int) (state : String)
  | read (pin : Int)
deriving DecidableEq

/-- The pin an operation addresses. -/
def PinOp.pin : PinOp → Int
  | PinOp.set p _ => p
  | PinOp.read p => p

/-- Run one operation, keeping only the controller state. -/
def run_op (hw : Hardware) (s : CtrlState) : PinOp → Except String CtrlState
  | PinOp.set p st =>
    match set_gpio_output hw s p st with
    | Except.error e => Except.error e
    | Except.ok (_, s1, _) => Except.ok s1
  | PinOp.read p =>
    match read_gpio_input hw s p with
    | Except.error e => Except.error e
    | Except.ok (_, s1, _) => Except.ok s1

/-- Run a sequence of operations left to right. -/
def run_ops (hw : Hardware) : CtrlState → List PinOp → Except String CtrlState
  | s, [] => Except.ok s
  | s, op :: rest =>
    match run_op hw s op with
    | Except.error e => Except.error e
    | Except.ok s1 => run_ops hw s1 rest

/-! ## The line-transport worker (`simple_gpio_server.py`)

`main` prints the readiness line `READY` (with `print(..., flush=True)`,
hence to standard output, simple_gpio_server.py:20), then loops over
standard-input lines: blank lines are skipped, unparseable JSON yields
one error response with id null and code -32700, and a parsed request
yields one echo response with id `request.get("id", 1)` and method
`request.get("method", "unknown")` (simple_gpio_server.py:22-61).
The `logging` diagnostics (configured to stderr) are not modelled.
`json.loads` is a library call, so an input line is modelled by its
parse outcome. -/

/-- Output channel of the worker process. -/
inductive Chan
  | stdout
  | stderr
deriving DecidableEq

/-- A parsed JSON-RPC request object: the `id` and `method` fields when
present (simple_gpio_server.py:42,45). -/
structure Rpc where
  id : Option Int
  method : Option String
deriving DecidableEq

/-- One line read from standard input, by its `json.loads` outcome:
blank after strip (skipped), unparseable (JSONDecodeError), or parsed. -/
inductive InLine
  | blank
  | malformed (text : String)
  | request (r : Rpc)
deriving DecidableEq

/-- A JSON response line written by the worker: its id (`none` is JSON
null), whether it is an error, the error code, the error message, and
the echoed method of a success response. -/
structure OutMsg where
  id : Option Int
  is_error : Bool
  code : Option Int
  emsg : Option String
  result_method : Option String
deriving DecidableEq

/-- An output event of the worker: the readiness line or a response. -/
inductive ServerEvent
  | ready_line
  | msg (m : OutMsg)
deriving DecidableEq

/-- The loop body for one input line (simple_gpio_server.py:29-61):
blank lines produce nothing; a malformed line produces exactly one
error response with id null and code -32700 (the exception detail in
the message is abstracted); a parsed request produces exactly one echo
response.  Every response goes to standard output via `print`. -/
def process_line : InLine → List (Chan × ServerEvent)
  | InLine.blank => []
  | InLine.malformed _ =>
    [(Chan.stdout, ServerEvent.msg
      { id := none, is_error := true, code := some (-32700),
        emsg := some "Parse error", result_method := none })]
  | InLine.request r =>
    [(Chan.stdout, ServerEvent.msg
      { id := some (r.id.getD 1), is_error := false, code := none,
        emsg := none, result_method := some (r.method.getD "unknown") })]

/-- All response events for a list of input lines (the read loop). -/
def server_responses (input : List InLine) : List (Chan × ServerEvent) :=
  input.flatMap process_line

/-- `main` of simple_gpio_server.py: the readiness line first (written
by `print("READY", flush=True)`, i.e. on standard output), then the
read loop until end of input. -/
def simple_server_main (input : List InLine) : List (Chan × ServerEvent) :=
  (Chan.stdout, ServerEvent.ready_line) :: server_responses input

/-! ## The supervisor clients

`mcp_client.py` (`SimpleGPIOClient`), `mcp_client_fixed.py`
(`FixedGPIOClient`) and `simple_gpio_client.py`
(`SimpleHTTPGPIOClient`). -/

/-- A line arriving on the worker stdout, by its `json.loads` outcome:
`parsed id hasError payload` carries the response id (`none` when the
id field is absent or null), whether an `error` key is present, and the
rest of the payload abstracted to a string; `invalid` is an unparseable
line. -/
inductive RespLine
  | parsed (id : Option Int) (hasError : Bool) (payload : String)
  | invalid (text : String)
deriving DecidableEq

/-- Outcome of one `_send_request` call.  `ok_result rid payload`
records the payload returned by `response.get("result")` together with
the id of the response it was taken from. -/
inductive CallOutcome
  | ok_result (rid : Option Int) (payload : String)
  | server_error
  | comm_error
  | invalid_json_err
  | timeout_err
deriving DecidableEq

/-- `SimpleGPIOClient._send_request` reading phase
(mcp_client.py:72-118): after writing the request it reads ONE line
from the worker stdout (select with a 10 s bound, modelled by the empty
stream), parses it, raises on an `error` key, and otherwise returns
`response.get("result")` — the response id is never compared with the
request id.  Returns the outcome and the rest of the stream. -/
def simple_send_request (reqId : Int) (stream : List RespLine) :
    CallOutcome × List RespLine :=
  match stream with
  | [] => (CallOutcome.timeout_err, [])
  | RespLine.invalid _ :: rest => (CallOutcome.invalid_json_err, rest)
  | RespLine.parsed rid hasErr payload :: rest =>
    if hasErr then (CallOutcome.server_error, rest)
    else (CallOutcome.ok_result rid payload, rest)

/-- An item of the `FixedGPIOClient.response_queue`, as put there by the
reader threads (mcp_client_fixed.py:39-66): a stdout line, a stderr
line, or a reader-error marker. -/
inductive QItem
  | out_line (l : RespLine)
  | err_line (s : String)
  | reader_error (s : String)
deriving DecidableEq

/-- `FixedGPIOClient._send_request` waiting phase
(mcp_client_fixed.py:92-115): drain the queue; stdout lines that fail
to parse are skipped with a warning; a parsed response is delivered
only when `response.get("id") == request["id"]`, raising on an `error`
key; stderr items are consumed silently; an `error` queue item raises;
an exhausted queue models the 10 s timeout. -/
def fixed_send_request (reqId : Int) : List QItem → CallOutcome × List QItem
  | [] => (CallOutcome.timeout_err, [])
  | QItem.out_line (RespLine.invalid _) :: rest => fixed_send_request reqId rest
  | QItem.out_line (RespLine.parsed rid hasErr payload) :: rest =>
    if rid = some reqId then
      if hasErr then (CallOutcome.server_error, rest)
      else (CallOutcome.ok_result rid payload, rest)
    else fixed_send_request reqId rest
  | QItem.err_line _ :: rest => fixed_send_request reqId rest
  | QItem.reader_error _ :: rest => (CallOutcome.comm_error, rest)

/-- `"GPIO_SERVER_READY" in line` (mcp_client.py:153,
mcp_client_fixed.py:148). -/
def has_ready_marker (l : String) : Bool := py_contains "GPIO_SERVER_READY" l

/-- Outcome of the readiness wait inside `start_server`. -/
inductive StartOutcome
  | ready
  | startup_failure
  | timeout_no_ready
deriving DecidableEq

/-- What one 0.1 s iteration of the `SimpleGPIOClient.start_server`
wait loop observes (mcp_client.py:139-158): whether `poll()` reports
the worker exited, and the stderr line `select` made available, if
any. -/
structure Attempt where
  exited : Bool
  line : Option String
deriving DecidableEq

/-- The `SimpleGPIOClient.start_server` readiness wait
(mcp_client.py:138-161): up to `fuel` (50) iterations; each iteration
first polls the exit status and fails fast (capturing the worker
stderr/stdout) when the worker has exited, then checks one available
stderr line for the readiness marker.  Returns the outcome and the
number of iterations consumed (the full budget on timeout). -/
def simple_start_wait : Nat → List Attempt → StartOutcome × Nat
  | 0, _ => (StartOutcome.timeout_no_ready, 0)
  | fuel + 1, [] => (StartOutcome.timeout_no_ready, fuel + 1)
  | fuel + 1, a :: rest =>
    if a.exited then (StartOutcome.startup_failure, 1)
    else
      match a.line with
      | some l =>
        if has_ready_marker l then (StartOutcome.ready, 1)
        else
          match simple_start_wait fuel rest with
          | (o, n) => (o, n + 1)
      | none =>
        match simple_start_wait fuel rest with
        | (o, n) => (o, n + 1)

/-- The `FixedGPIOClient.start_server` readiness wait
(mcp_client_fixed.py:140-156): the 10 s loop consults ONLY the response
queue, looking for a stderr item containing the marker; the worker exit
status is never polled there, so the only outcomes are `ready` and,
after the full timeout, `timeout_no_ready` (the RuntimeError
"did not send ready signal within timeout", with no captured
diagnostics).  The queue list is everything the reader threads will
ever deliver; a worker that exited emitting nothing gives `[]`. -/
def fixed_start_wait : List QItem → StartOutcome
  | [] => StartOutcome.timeout_no_ready
  | QItem.err_line l :: rest =>
    if has_ready_marker l then StartOutcome.ready else fixed_start_wait rest
  | QItem.out_line _ :: rest => fixed_start_wait rest
  | QItem.reader_error _ :: rest => fixed_start_wait rest

/-! ## stop() of the three clients

Each `stop` method returns immediately when the process handle is
already `None`; otherwise it terminates/kills the worker (external
effects) and in a `finally` block sets the handle to `None`
(mcp_client.py:197-219, mcp_client_fixed.py:180-202,
simple_gpio_client.py:96-111).  Only the handle field is ever
assigned. -/

/-- Client state of `SimpleGPIOClient` (mcp_client.py:28-30). -/
structure SimpleClientState where
  server_script : String
  server_process : Option Nat
  request_id : Nat
deriving DecidableEq

/-- `SimpleGPIOClient.stop_server`. -/
def simple_stop_server (c : SimpleClientState) : SimpleClientState :=
  match c.server_process with
  | none => c
  | some _ => { c with server_process := none }

/-- Client state of `FixedGPIOClient` (mcp_client_fixed.py:26-31);
the reader threads and queue contents are untouched by `stop_server`. -/
structure FixedClientState where
  server_script : String
  server_process : Option Nat
  request_id : Nat
  response_queue : List QItem
deriving DecidableEq

/-- `FixedGPIOClient.stop_server`. -/
def fixed_stop_server (c : FixedClientState) : FixedClientState :=
  match c.server_process with
  | none => c
  | some _ => { c with server_process := none }

/-- Client state of `SimpleHTTPGPIOClient`
(simple_gpio_client.py:21-25); `service_port` and `base_url` are not
reset by `stop_service`. -/
structure HttpClientState where
  service_port : Option Nat
  base_url : Option String
  service_process : Option Nat
deriving DecidableEq

/-- `SimpleHTTPGPIOClient.stop_service`. -/
def http_stop_service (c : HttpClientState) : HttpClientState :=
  match c.service_process with
  | none => c
  | some _ => { c with service_process := none }

/-! ## Helper lemmas about the controller -/

/-- When every hardware call succeeds, `setup_pin` in output mode claims
the pin and marks the controller initialized. -/
theorem setup_pin_output_ok (hw : Hardware) (s : CtrlState) (pin : Int)
    (h1 : hw.setmode_ok = true) (h2 : hw.setup_ok pin "output" = true) :
    ∃ t, setup_pin hw s pin "output" =
      Except.ok (true, { initialized := true, active_pins := insert pin s.active_pins }, t) ∧
      ∀ c ∈ t, c = HwCall.setmode ∨ c = HwCall.setup pin "output" := by
  have hlow : py_lower "output" = "output" := by decide
  by_cases hi : s.initialized = true
  · refine ⟨[HwCall.setup pin "output"], ?_, by simp⟩
    simp only [setup_pin, hi, if_true, hlow, h2]
    cases s with
    | mk ini act => simp_all
  · refine ⟨[HwCall.setmode, HwCall.setup pin "output"], ?_, by simp⟩
    simp only [setup_pin, hi, if_false, Bool.false_eq_true, initialize_gpio, h1, if_true, hlow, h2]
    simp

/-- When every hardware call succeeds, `setup_pin` in input mode claims
the pin and marks the controller initialized — the resulting registry is
the same as for output mode. -/
theorem setup_pin_input_ok (hw : Hardware) (s : CtrlState) (pin : Int)
    (h1 : hw.setmode_ok = true) (h2 : hw.setup_ok pin "input" = true) :
    ∃ t, setup_pin hw s pin "input" =
      Except.ok (true, { initialized := true, active_pins := insert pin s.active_pins }, t) ∧
      ∀ c ∈ t, c = HwCall.setmode ∨ c = HwCall.setup pin "input" := by
  have hlow1 : py_lower "input" = "output" ↔ False := by decide
  have hlow2 : py_lower "input" = "input" := by decide
  by_cases hi : s.initialized = true
  · refine ⟨[HwCall.setup pin "input"], ?_, by simp⟩
    simp only [setup_pin, hi, if_true, hlow1, if_false, hlow2, h2]
    cases s with
    | mk ini act => simp_all
  · refine ⟨[HwCall.setmode, HwCall.setup pin "input"], ?_, by simp⟩
    simp only [setup_pin, hi, if_false, Bool.false_eq_true, initialize_gpio, h1, if_true,
      hlow1, hlow2, h2]
    simp

/-- On an already-claimed pin, `set_gpio_output` leaves the registry
unchanged and performs at most a `GPIO.output` call. -/
theorem set_out_mem (hw : Hardware) (s : CtrlState) (pin : Int) (st : String)
    (h : pin ∈ s.active_pins) :
    ∃ r t, set_gpio_output hw s pin st = Except.ok (r, s, t) ∧
      ∀ c ∈ t, ∃ b, c = HwCall.output pin b := by
  by_cases hv : is_valid_pin pin = true
  · cases hps : parse_state st with
    | none =>
      refine ⟨{ success := false, message := invalid_state_msg st, pin := pin,
                state := some st, gpio_value := none }, [], ?_, by simp⟩
      simp [set_gpio_output, hv, h, hps]
    | some b =>
      by_cases ho : hw.output_ok pin = true
      · refine ⟨set_success_result pin b, [HwCall.output pin b], ?_, ?_⟩
        · simp [set_gpio_output, hv, h, hps, ho]
        · intro c hc
          simp only [List.mem_singleton] at hc
          exact ⟨b, hc⟩
      · refine ⟨{ success := false,
                  message := "Error setting GPIO pin " ++ toString pin ++ ": hardware fault",
                  pin := pin, state := some st, gpio_value := none },
                [HwCall.output pin b], ?_, ?_⟩
        · simp [set_gpio_output, hv, h, hps, ho]
        · intro c hc
          simp only [List.mem_singleton] at hc
          exact ⟨b, hc⟩
  · refine ⟨{ success := false, message := invalid_pin_msg_set pin, pin := pin,
              state := some st, gpio_value := none }, [], ?_, by simp⟩
    simp [set_gpio_output, hv]

/-- On an already-claimed pin, `read_gpio_input` leaves the registry
unchanged. -/
theorem read_in_mem (hw : Hardware) (s : CtrlState) (pin : Int)
    (h : pin ∈ s.active_pins) :
    ∃ r t, read_gpio_input hw s pin = Except.ok (r, s, t) := by
  by_cases hv : is_valid_pin pin = true
  · cases hin : hw.input_val pin with
    | none =>
      refine ⟨{ success := false,
                message := "Error reading GPIO pin " ++ toString pin ++ ": hardware fault",
                pin := pin, state := none, gpio_value := none }, [HwCall.input pin], ?_⟩
      simp [read_gpio_input, hv, h, hin]
    | some lv =>
      refine ⟨{ success := true,
                message := "GPIO pin " ++ toString pin ++ " is " ++ (if lv then "HIGH" else "LOW"),
                pin := pin, state := some (if lv then "HIGH" else "LOW"),
                gpio_value := some lv }, [HwCall.input pin], ?_⟩
      simp [read_gpio_input, hv, h, hin]
  · refine ⟨{ success := false, message := invalid_pin_msg_read pin, pin := pin,
              state := none, gpio_value := none }, [], ?_⟩
    simp [read_gpio_input, hv]

/-! ## C1 -/

/-- C1: for every pin outside the 17-entry allow-list,
`set_gpio_output` and `read_gpio_input` return the invalid-pin failure
and leave the registry (`active_pins` and `initialized`) completely
unchanged, performing no hardware call at all. -/
theorem invalid_pin_rejected_registry_untouched
    (hw : Hardware) (s : CtrlState) (pin : Int) (st : String)
    (h : pin ∉ valid_pins) :
    set_gpio_output hw s pin st =
      Except.ok ({ success := false, message := invalid_pin_msg_set pin, pin := pin,
                   state := some st, gpio_value := none }, s, []) ∧
    read_gpio_input hw s pin =
      Except.ok ({ success := false, message := invalid_pin_msg_read pin, pin := pin,
                   state := none, gpio_value := none }, s, []) := by
  have hv : is_valid_pin pin = false := by
    simp [is_valid_pin, h]
  constructor
  · simp [set_gpio_output, hv]
  · simp [read_gpio_input, hv]

/-- Witness for C1 at pin 3 (reserved for the two-wire bus, hence
outside the allow-list). -/
theorem invalid_pin_rejected_registry_untouched_witness :
    set_gpio_output hwOk initial_state 3 "high" =
      Except.ok ({ success := false, message := invalid_pin_msg_set 3, pin := 3,
                   state := some "high", gpio_value := none }, initial_state, []) ∧
    read_gpio_input hwOk initial_state 3 =
      Except.ok ({ success := false, message := invalid_pin_msg_read 3, pin := 3,
                   state := none, gpio_value := none }, initial_state, []) :=
  invalid_pin_rejected_registry_untouched hwOk initial_state 3 "high" (by decide)

/-! ## C4 -/

/-- C4 counterexample: on working hardware, `set_gpio_output` with the
valid pin 18 (previously unclaimed) and the non-alias token "bogus"
does return the invalid-state failure, but the pin has already been set
up as output and added to `active_pins`, because the body performs the
setup step before parsing the state token
(freenove_projects_board.py:97-116).  The claimed "a previously
unclaimed pin remains unclaimed" is therefore false. -/
theorem set_invalid_state_claims_pin_cx :
    set_gpio_output hwOk initial_state 18 "bogus" =
      Except.ok ({ success := false, message := invalid_state_msg "bogus", pin := 18,
                   state := some "bogus", gpio_value := none },
                 { initialized := true, active_pins := {18} },
                 [HwCall.setmode, HwCall.setup 18 "output"]) ∧
    (18 : Int) ∉ initial_state.active_pins ∧
    (18 : Int) ∈ ({18} : Finset Int) := by decide

/-- C4 (amended): for a pin in the allow-list and a non-alias state
token, `set_gpio_output` returns the invalid-state failure and never
reaches `GPIO.output`; a pin that was ALREADY claimed keeps the
registry, and the pin level, exactly unchanged (no hardware call at
all), while a previously UNCLAIMED pin is first set up as output —
added to `active_pins` — before the state token is examined. -/
theorem set_invalid_state_result_and_registry
    (hw : Hardware) (s : CtrlState) (pin : Int) (st : String)
    (hp : pin ∈ valid_pins) (hs : parse_state st = none) :
    (pin ∈ s.active_pins →
      set_gpio_output hw s pin st =
        Except.ok ({ success := false, message := invalid_state_msg st, pin := pin,
                     state := some st, gpio_value := none }, s, [])) ∧
    (pin ∉ s.active_pins → hw.setmode_ok = true → hw.setup_ok pin "output" = true →
      ∃ t, set_gpio_output hw s pin st =
        Except.ok ({ success := false, message := invalid_state_msg st, pin := pin,
                     state := some st, gpio_value := none },
                   { initialized := true, active_pins := insert pin s.active_pins }, t) ∧
        ∀ c ∈ t, ∀ b, c ≠ HwCall.output pin b) := by
  have hv : is_valid_pin pin = true := by
    simp [is_valid_pin, hp]
  constructor
  · intro hmem
    simp [set_gpio_output, hv, hmem, hs]
  · intro hnm h1 h2
    obtain ⟨t, hsp, htr⟩ := setup_pin_output_ok hw s pin h1 h2
    refine ⟨t, ?_, ?_⟩
    · simp [set_gpio_output, hv, hnm, hsp, hs]
    · intro c hc b
      rcases htr c hc with hcm | hcm <;> simp [hcm]

/-- Witness for C4 (amended): pin 18 already claimed, token "bogus". -/
theorem set_invalid_state_result_and_registry_witness :
    set_gpio_output hwOk { initialized := true, active_pins := {18} } 18 "bogus" =
      Except.ok ({ success := false, message := invalid_state_msg "bogus", pin := 18,
                   state := some "bogus", gpio_value := none },
                 { initialized := true, active_pins := {18} }, []) :=
  (set_invalid_state_result_and_registry hwOk { initialized := true, active_pins := {18} }
    18 "bogus" (by decide) (by decide)).1 (by decide)

/-! ## C6 -/

/-- C6: state-token normalization is case-insensitive and alias-closed:
every token whose lowered, stripped form is one of high/on/1/true
parses to HIGH, every one of low/off/0/false parses to LOW, everything
else parses to no level at all, and on working hardware
`set_gpio_output` with "on", "HIGH" and "1" on any allow-listed pin
produces the same successful result with resolved level HIGH (and the
same final registry and hardware trace). -/
theorem state_token_normalization :
    (∀ st : String, py_strip (py_lower st) ∈ (["high", "on", "1", "true"] : List String) →
      parse_state st = some true) ∧
    (∀ st : String, py_strip (py_lower st) ∈ (["low", "off", "0", "false"] : List String) →
      parse_state st = some false) ∧
    (∀ st : String, py_strip (py_lower st) ∉ (["high", "on", "1", "true"] : List String) →
      py_strip (py_lower st) ∉ (["low", "off", "0", "false"] : List String) →
      parse_state st = none) ∧
    (∀ pin : Int, pin ∈ valid_pins → ∀ s : CtrlState,
      ∃ s1 t,
        set_gpio_output hwOk s pin "on" =
          Except.ok (set_success_result pin true, s1, t ++ [HwCall.output pin true]) ∧
        set_gpio_output hwOk s pin "HIGH" =
          Except.ok (set_success_result pin true, s1, t ++ [HwCall.output pin true]) ∧
        set_gpio_output hwOk s pin "1" =
          Except.ok (set_success_result pin true, s1, t ++ [HwCall.output pin true])) := by
  refine ⟨?_, ?_, ?_, ?_⟩
  · intro st h
    simp only [List.mem_cons, List.not_mem_nil, or_false] at h
    rcases h with h | h | h | h <;>
      · simp only [parse_state, h]
        decide
  · intro st h
    simp only [List.mem_cons, List.not_mem_nil, or_false] at h
    rcases h with h | h | h | h <;>
      · simp only [parse_state, h]
        decide
  · intro st h1 h2
    simp [parse_state, h1, h2]
  · intro pin hp s
    have hv : is_valid_pin pin = true := by simp [is_valid_pin, hp]
    have hon : parse_state "on" = some true := by decide
    have hhigh : parse_state "HIGH" = some true := by decide
    have hone : parse_state "1" = some true := by decide
    by_cases hm : pin ∈ s.active_pins
    · refine ⟨s, [], ?_, ?_, ?_⟩ <;>
        simp [set_gpio_output, hv, hm, hon, hhigh, hone, hwOk]
    · obtain ⟨t, hsp, _⟩ := setup_pin_output_ok hwOk s pin rfl rfl
      have hoo : hwOk.output_ok pin = true := rfl
      refine ⟨{ initialized := true, active_pins := insert pin s.active_pins }, t, ?_, ?_, ?_⟩ <;>
        simp [set_gpio_output, hv, hm, hsp, hon, hhigh, hone, hoo]

/-- Witness for C6: mixed-case tokens on pin 18 from a fresh
controller. -/
theorem state_token_normalization_witness :
    parse_state "On" = some true ∧ parse_state " FALSE " = some false ∧
    parse_state "bogus" = none ∧
    (∃ s1 t,
      set_gpio_output hwOk initial_state 18 "on" =
        Except.ok (set_success_result 18 true, s1, t ++ [HwCall.output 18 true]) ∧
      set_gpio_output hwOk initial_state 18 "HIGH" =
        Except.ok (set_success_result 18 true, s1, t ++ [HwCall.output 18 true]) ∧
      set_gpio_output hwOk initial_state 18 "1" =
        Except.ok (set_success_result 18 true, s1, t ++ [HwCall.output 18 true])) :=
  ⟨state_token_normalization.1 "On" (by decide),
   state_token_normalization.2.1 " FALSE " (by decide),
   state_token_normalization.2.2.1 "bogus" (by decide) (by decide),
   state_token_normalization.2.2.2 18 (by decide) initial_state⟩

/-! ## C10 -/

/-- C10: whether `set_gpio_output` performs pin setup is gated only on
membership in `active_pins`, not on a claimed direction: on any pin
already in `active_pins` (no matter whether it got there through an
input-mode setup by `read_gpio_input`) the whole setup step is skipped
— the registry is unchanged and the hardware trace holds at most a
`GPIO.output` call, never a `GPIO.setup` or `GPIO.setmode`.  Moreover
the registry records no per-pin mode at all: the registries produced by
an input-mode and an output-mode `setup_pin` are identical whenever the
two library calls fare the same. -/
theorem setup_gated_on_membership_only
    (hw : Hardware) (s : CtrlState) (pin : Int) (st : String)
    (h : pin ∈ s.active_pins) :
    (∃ r t, set_gpio_output hw s pin st = Except.ok (r, s, t) ∧
       ∀ c ∈ t, ∃ b, c = HwCall.output pin b) ∧
    (∀ (hw2 : Hardware) (s2 : CtrlState) (p : Int),
       hw2.setup_ok p "output" = hw2.setup_ok p "input" →
       Except.map (fun x => x.2.1) (setup_pin hw2 s2 p "output") =
         Except.map (fun x => x.2.1) (setup_pin hw2 s2 p "input")) := by
  refine ⟨set_out_mem hw s pin st h, ?_⟩
  intro hw2 s2 p heq
  have hl1 : py_lower "output" = "output" := by decide
  have hl2 : py_lower "input" = "output" ↔ False := by decide
  have hl3 : py_lower "input" = "input" := by decide
  by_cases hi : s2.initialized = true
  · by_cases hsu : hw2.setup_ok p "output" = true
    · have hsu2 : hw2.setup_ok p "input" = true := by rw [← heq]; exact hsu
      simp [setup_pin, hi, hl1, hl2, hl3, hsu, hsu2, Except.map]
    · have hsu2 : ¬ hw2.setup_ok p "input" = true := by rw [← heq]; exact hsu
      simp [setup_pin, hi, hl1, hl2, hl3, hsu, hsu2, Except.map]
  · by_cases hmo : hw2.setmode_ok = true
    · by_cases hsu : hw2.setup_ok p "output" = true
      · have hsu2 : hw2.setup_ok p "input" = true := by rw [← heq]; exact hsu
        simp [setup_pin, hi, initialize_gpio, hmo, hl1, hl2, hl3, hsu, hsu2, Except.map]
      · have hsu2 : ¬ hw2.setup_ok p "input" = true := by rw [← heq]; exact hsu
        simp [setup_pin, hi, initialize_gpio, hmo, hl1, hl2, hl3, hsu, hsu2, Except.map]
    · simp [setup_pin, hi, initialize_gpio, hmo]

/-- Witness for C10: pin 18 claimed as INPUT by `read_gpio_input` from
a fresh controller; the following `set_gpio_output` call on working
hardware skips setup (the registry is returned unchanged). -/
theorem setup_gated_on_membership_only_witness :
    ∃ r t, set_gpio_output hwOk { initialized := true, active_pins := {18} } 18 "high" =
      Except.ok (r, { initialized := true, active_pins := {18} }, t) ∧
      ∀ c ∈ t, ∃ b, c = HwCall.output 18 b :=
  (setup_gated_on_membership_only hwOk { initialized := true, active_pins := {18} }
    18 "high" (by decide)).1

/-! ## C8 -/

/-- On hardware whose setmode and setup calls succeed, one operation on
an allow-listed pin succeeds in claiming the pin, and initializes GPIO
exactly when the pin was not yet claimed. -/
theorem run_op_ok (hw : Hardware) (h1 : hw.setmode_ok = true)
    (h2 : ∀ p m, hw.setup_ok p m = true) (s : CtrlState) (op : PinOp)
    (hp : op.pin ∈ valid_pins) :
    ∃ s1, run_op hw s op = Except.ok s1 ∧
      s1.active_pins = insert op.pin s.active_pins ∧
      s1.initialized = (s.initialized || decide (op.pin ∉ s.active_pins)) := by
  cases op with
  | set p st =>
    have hv : is_valid_pin p = true := by simp [is_valid_pin]; exact hp
    by_cases hm : p ∈ s.active_pins
    · obtain ⟨r, t, heq, _⟩ := set_out_mem hw s p st hm
      refine ⟨s, ?_, ?_, ?_⟩
      · simp [run_op, heq]
      · simp [PinOp.pin, Finset.insert_eq_self.mpr hm]
      · simp [PinOp.pin, hm]
    · obtain ⟨t, hsp, _⟩ := setup_pin_output_ok hw s p h1 (h2 p "output")
      refine ⟨{ initialized := true, active_pins := insert p s.active_pins }, ?_, by simp [PinOp.pin], ?_⟩
      · cases hps : parse_state st with
        | none => simp [run_op, set_gpio_output, hv, hm, hsp, hps]
        | some b =>
          by_cases ho : hw.output_ok p = true <;>
            simp [run_op, set_gpio_output, hv, hm, hsp, hps, ho]
      · simp [PinOp.pin, hm]
  | read p =>
    have hv : is_valid_pin p = true := by simp [is_valid_pin]; exact hp
    by_cases hm : p ∈ s.active_pins
    · obtain ⟨r, t, heq⟩ := read_in_mem hw s p hm
      refine ⟨s, ?_, ?_, ?_⟩
      · simp [run_op, heq]
      · simp [PinOp.pin, Finset.insert_eq_self.mpr hm]
      · simp [PinOp.pin, hm]
    · obtain ⟨t, hsp, _⟩ := setup_pin_input_ok hw s p h1 (h2 p "input")
      refine ⟨{ initialized := true, active_pins := insert p s.active_pins }, ?_, by simp [PinOp.pin], ?_⟩
      · cases hin : hw.input_val p with
        | none => simp [run_op, read_gpio_input, hv, hm, hsp, hin]
        | some lv => simp [run_op, read_gpio_input, hv, hm, hsp, hin]
      · simp [PinOp.pin, hm]

/-- Running any sequence of operations on allow-listed pins succeeds
and claims exactly the addressed pins, on top of whatever was claimed
before; from an empty registry a nonempty sequence also initializes
GPIO. -/
theorem run_ops_ok (hw : Hardware) (h1 : hw.setmode_ok = true)
    (h2 : ∀ p m, hw.setup_ok p m = true) :
    ∀ (ops : List PinOp) (s : CtrlState), (∀ op ∈ ops, op.pin ∈ valid_pins) →
    ∃ s2, run_ops hw s ops = Except.ok s2 ∧
      s2.active_pins = s.active_pins ∪ (ops.map PinOp.pin).toFinset ∧
      (s.initialized = true → s2.initialized = true) ∧
      (s.active_pins = ∅ → ops ≠ [] → s2.initialized = true) := by
  intro ops
  induction ops with
  | nil =>
    intro s _
    exact ⟨s, rfl, by simp, fun h => h, fun _ hne => absurd rfl hne⟩
  | cons op rest ih =>
    intro s hpins
    obtain ⟨s1, hop, hact, hini⟩ := run_op_ok hw h1 h2 s op (hpins op (by simp))
    obtain ⟨s2, hrest, hact2, hini2, _⟩ := ih s1 (fun o ho => hpins o (by simp [ho]))
    refine ⟨s2, ?_, ?_, ?_, ?_⟩
    · simp [run_ops, hop, hrest]
    · rw [hact2, hact, List.map_cons, List.toFinset_cons, Finset.insert_union, Finset.union_insert]
    · intro hsi
      exact hini2 (by rw [hini, hsi, Bool.true_or])
    · intro hemp _
      have : decide (op.pin ∉ s.active_pins) = true := by simp [hemp]
      exact hini2 (by rw [hini, this, Bool.or_true])

/-- C8: `get_pin_status` is a pure read (the state comes back exactly
unchanged) and reports exactly the set of claimed pins with their
count: after claiming pins 18 and 22 through ANY sequence of
set/read operations in any order on working hardware, it reports
exactly these two pins and a count of 2. -/
theorem get_pin_status_pure_and_exact (hw : Hardware) (h1 : hw.setmode_ok = true)
    (h2 : ∀ p m, hw.setup_ok p m = true) (ops : List PinOp)
    (hpins : (ops.map PinOp.pin).toFinset = ({18, 22} : Finset Int)) :
    ∃ s2, run_ops hw initial_state ops = Except.ok s2 ∧
      get_pin_status s2 =
        ({ initialized := true, active_pins := {18, 22}, pin_count := 2 }, s2) := by
  have hvp : ∀ op ∈ ops, op.pin ∈ valid_pins := by
    intro op ho
    have hmem : op.pin ∈ (ops.map PinOp.pin).toFinset := by
      rw [List.mem_toFinset, List.mem_map]
      exact ⟨op, ho, rfl⟩
    rw [hpins] at hmem
    rcases Finset.mem_insert.mp hmem with h | h
    · rw [h]; decide
    · rw [Finset.mem_singleton.mp h]; decide
  have hne : ops ≠ [] := by
    intro h0
    rw [h0] at hpins
    exact absurd hpins (by decide)
  obtain ⟨s2, hrun, hact, _, hini⟩ := run_ops_ok hw h1 h2 ops initial_state hvp
  refine ⟨s2, hrun, ?_⟩
  have ha : s2.active_pins = ({18, 22} : Finset Int) := by
    rw [hact, hpins]
    simp [initial_state]
  have hcard : s2.active_pins.card = 2 := by rw [ha]; decide
  have hi : s2.initialized = true := hini rfl hne
  simp [get_pin_status, ha, hcard, hi]

/-- Witness for C8: claim 18 by a set and 22 by a read. -/
theorem get_pin_status_pure_and_exact_witness :
    ∃ s2, run_ops hwOk initial_state [PinOp.set 18 "high", PinOp.read 22] = Except.ok s2 ∧
      get_pin_status s2 =
        ({ initialized := true, active_pins := {18, 22}, pin_count := 2 }, s2) :=
  get_pin_status_pure_and_exact hwOk rfl (fun _ _ => rfl)
    [PinOp.set 18 "high", PinOp.read 22] (by decide)

/-! ## C2 -/

/-- C2 counterexample: the line-transport worker emits its readiness
marker on STANDARD OUTPUT (simple_gpio_server.py:20 uses a plain
`print`), i.e. on the very channel the responses use — not on standard
error or another side channel as claimed. -/
theorem ready_marker_on_stdout_cx :
    simple_server_main [] = [(Chan.stdout, ServerEvent.ready_line)] ∧
    Chan.stdout ≠ Chan.stderr := by decide

/-- C2 (amended): the line-transport worker writes its readiness marker
to standard output, the SAME stream that carries the responses; it is
emitted exactly once, as the first line, before any response, and every
later output event is a response on standard output (never another
readiness line). -/
theorem ready_marker_first_line_stdout (input : List InLine) :
    simple_server_main input =
      (Chan.stdout, ServerEvent.ready_line) :: server_responses input ∧
    ∀ e ∈ server_responses input, e.1 = Chan.stdout ∧ e.2 ≠ ServerEvent.ready_line := by
  refine ⟨rfl, ?_⟩
  intro e he
  rw [server_responses, List.mem_flatMap] at he
  obtain ⟨l, _, hl⟩ := he
  cases l with
  | blank => simp [process_line] at hl
  | malformed t =>
    simp only [process_line, List.mem_singleton] at hl
    rw [hl]
    exact ⟨rfl, by simp⟩
  | request r =>
    simp only [process_line, List.mem_singleton] at hl
    rw [hl]
    exact ⟨rfl, by simp⟩

/-- Witness for C2 (amended) on a one-line input. -/
theorem ready_marker_first_line_stdout_witness :
    simple_server_main [InLine.malformed "oops"] =
      (Chan.stdout, ServerEvent.ready_line) :: server_responses [InLine.malformed "oops"] ∧
    ∀ e ∈ server_responses [InLine.malformed "oops"],
      e.1 = Chan.stdout ∧ e.2 ≠ ServerEvent.ready_line :=
  ready_marker_first_line_stdout [InLine.malformed "oops"]

/-! ## C7 -/

/-- C7: a line that is not parseable JSON makes the worker write
exactly one error response — id null (`none`), code -32700, a
parse-error message — and the read loop continues: the lines before and
after the malformed one are answered exactly as they would be on their
own, and the readiness line still comes first. -/
theorem malformed_line_single_error_loop_continues
    (pre post : List InLine) (t : String) :
    server_responses (pre ++ InLine.malformed t :: post) =
      server_responses pre ++
        (Chan.stdout, ServerEvent.msg
          { id := none, is_error := true, code := some (-32700),
            emsg := some "Parse error", result_method := none }) ::
        server_responses post ∧
    simple_server_main (pre ++ InLine.malformed t :: post) =
      (Chan.stdout, ServerEvent.ready_line) ::
        (server_responses pre ++
          (Chan.stdout, ServerEvent.msg
            { id := none, is_error := true, code := some (-32700),
              emsg := some "Parse error", result_method := none }) ::
          server_responses post) := by
  have h : server_responses (pre ++ InLine.malformed t :: post) =
      server_responses pre ++
        (Chan.stdout, ServerEvent.msg
          { id := none, is_error := true, code := some (-32700),
            emsg := some "Parse error", result_method := none }) ::
        server_responses post := by
    simp [server_responses, process_line]
  exact ⟨h, by rw [simple_server_main, h]⟩

/-- Witness for C7: a malformed line between two well-formed requests. -/
theorem malformed_line_single_error_loop_continues_witness :
    server_responses
        ([InLine.request { id := some 7, method := some "tools/call" }] ++
          InLine.malformed "not json" ::
          [InLine.request { id := some 8, method := some "tools/list" }]) =
      server_responses [InLine.request { id := some 7, method := some "tools/call" }] ++
        (Chan.stdout, ServerEvent.msg
          { id := none, is_error := true, code := some (-32700),
            emsg := some "Parse error", result_method := none }) ::
        server_responses [InLine.request { id := some 8, method := some "tools/list" }] :=
  (malformed_line_single_error_loop_continues
    [InLine.request { id := some 7, method := some "tools/call" }]
    [InLine.request { id := some 8, method := some "tools/list" }] "not json").1

/-! ## C3 -/

/-- C3 counterexample: `SimpleGPIOClient._send_request` performs no id
check at all (mcp_client.py:97-102): a call with request id 1 whose
stream starts with the response carrying id 2 simply returns that
payload, and the following call with request id 2 gets the id-1
payload — full cross-delivery instead of discarding the mismatched
response. -/
theorem simple_client_accepts_foreign_id_cx :
    simple_send_request 1
        [RespLine.parsed (some 2) false "payload-of-request-2",
         RespLine.parsed (some 1) false "payload-of-request-1"] =
      (CallOutcome.ok_result (some 2) "payload-of-request-2",
       [RespLine.parsed (some 1) false "payload-of-request-1"]) ∧
    simple_send_request 2 [RespLine.parsed (some 1) false "payload-of-request-1"] =
      (CallOutcome.ok_result (some 1) "payload-of-request-1", []) := by decide

/-- C3 (amended): only `FixedGPIOClient._send_request` matches
responses by id — any payload it delivers comes from a response whose
id equals the outstanding request id, and a response with a different
id is skipped (discarded), never delivered; `SimpleGPIOClient`
(mcp_client.py) returns the first stdout line without any id
comparison, so there the claim fails. -/
theorem fixed_client_matches_request_id :
    (∀ (reqId : Int) (q q2 : List QItem) (rid : Option Int) (payload : String),
        fixed_send_request reqId q = (CallOutcome.ok_result rid payload, q2) →
        rid = some reqId) ∧
    (∀ (reqId : Int) (rid : Option Int) (hasErr : Bool) (payload : String)
        (rest : List QItem),
        rid ≠ some reqId →
        fixed_send_request reqId
            (QItem.out_line (RespLine.parsed rid hasErr payload) :: rest) =
          fixed_send_request reqId rest) := by
  constructor
  · intro reqId q
    induction q with
    | nil =>
      intro q2 rid payload h
      simp [fixed_send_request] at h
    | cons item rest ih =>
      intro q2 rid payload h
      cases item with
      | out_line l =>
        cases l with
        | invalid s =>
          rw [fixed_send_request] at h
          exact ih q2 rid payload h
        | parsed rid0 hasErr0 payload0 =>
          rw [fixed_send_request] at h
          by_cases hr : rid0 = some reqId
          · rw [if_pos hr] at h
            cases hasErr0 with
            | true => simp at h
            | false =>
              simp only [Bool.false_eq_true, if_false, Prod.mk.injEq] at h
              obtain ⟨h1, -⟩ := h
              cases h1
              exact hr
          · rw [if_neg hr] at h
            exact ih q2 rid payload h
      | err_line l =>
        rw [fixed_send_request] at h
        exact ih q2 rid payload h
      | reader_error l =>
        rw [fixed_send_request] at h
        simp at h
  · intro reqId rid hasErr payload rest hne
    rw [fixed_send_request, if_neg hne]

/-- Witness for C3 (amended): the delivered payload "mine" on the
two-element queue came from the response with the matching id 1. -/
theorem fixed_client_matches_request_id_witness :
    (some 1 : Option Int) = some 1 :=
  fixed_client_matches_request_id.1 1
    [QItem.out_line (RespLine.parsed (some 2) false "late"),
     QItem.out_line (RespLine.parsed (some 1) false "mine")]
    [] (some 1) "mine" (by decide)

/-! ## C5 -/

/-- If the first `k < fuel` observed iterations show a running worker
and no readiness marker, and the next iteration observes the worker
exited, the `SimpleGPIOClient` wait loop stops right there with the
startup failure. -/
theorem simple_start_wait_exit :
    ∀ (pre : List Attempt) (fuel : Nat) (post : List Attempt) (a : Attempt),
      a.exited = true → pre.length < fuel →
      (∀ x ∈ pre, x.exited = false ∧ ∀ l, x.line = some l → has_ready_marker l = false) →
      simple_start_wait fuel (pre ++ a :: post) =
        (StartOutcome.startup_failure, pre.length + 1) := by
  intro pre
  induction pre with
  | nil =>
    intro fuel post a ha hf _
    obtain ⟨f, rfl⟩ : ∃ f, fuel = f + 1 := ⟨fuel - 1, by omega⟩
    simp [simple_start_wait, ha]
  | cons x pre ih =>
    intro fuel post a ha hf hclean
    obtain ⟨f, rfl⟩ : ∃ f, fuel = f + 1 := ⟨fuel - 1, by omega⟩
    have hx := hclean x (by simp)
    have hrec := ih f post a ha (by simp at hf; omega)
      (fun y hy => hclean y (by simp [hy]))
    cases hl : x.line with
    | none =>
      simp only [List.cons_append, simple_start_wait, hx.1, Bool.false_eq_true,
        if_false, hl, List.append_eq, hrec, List.length_cons]
    | some l =>
      have hm := hx.2 l hl
      simp only [List.cons_append, simple_start_wait, hx.1, Bool.false_eq_true,
        if_false, hl, hm, List.append_eq, hrec, List.length_cons]

/-- C5 (amended): `SimpleGPIOClient.start_server` polls the worker exit
status on every 0.1 s iteration and fails fast — the startup failure
(which captures the worker stderr/stdout) is raised at the iteration
that observes the exit, within the 50-iteration budget, not after it;
`FixedGPIOClient.start_server`, by contrast, never checks the exit
status during its readiness wait, so NO queue content can ever produce
a startup failure there — a worker that dies silently leads to the
generic full-timeout error without captured diagnostics. -/
theorem startup_exit_detection :
    (∀ (pre post : List Attempt) (a : Attempt),
        a.exited = true → pre.length < 50 →
        (∀ x ∈ pre, x.exited = false ∧ ∀ l, x.line = some l → has_ready_marker l = false) →
        simple_start_wait 50 (pre ++ a :: post) =
          (StartOutcome.startup_failure, pre.length + 1) ∧
        pre.length + 1 ≤ 50) ∧
    (∀ q : List QItem, fixed_start_wait q ≠ StartOutcome.startup_failure) := by
  constructor
  · intro pre post a ha hf hclean
    exact ⟨simple_start_wait_exit pre 50 post a ha hf hclean, by omega⟩
  · intro q
    induction q with
    | nil => simp [fixed_start_wait]
    | cons item rest ih =>
      cases item with
      | err_line l =>
        by_cases hm : has_ready_marker l = true
        · simp [fixed_start_wait, hm]
        · simpa [fixed_start_wait, hm] using ih
      | out_line l => simpa [fixed_start_wait] using ih
      | reader_error l => simpa [fixed_start_wait] using ih

/-- C5 counterexample: a worker that exits immediately, emitting
nothing, leaves the `FixedGPIOClient` queue empty; the readiness wait
then ends in the generic full-timeout outcome, not in a fast startup
failure with captured diagnostics, contradicting the claim for this
client. -/
theorem fixed_client_no_fast_startup_failure_cx :
    fixed_start_wait [] = StartOutcome.timeout_no_ready ∧
    StartOutcome.timeout_no_ready ≠ StartOutcome.startup_failure := by decide

/-- Witness for C5 (amended): the worker observed exited on the very
first iteration. -/
theorem startup_exit_detection_witness :
    simple_start_wait 50
        (([] : List Attempt) ++ ({ exited := true, line := none } : Attempt) :: []) =
      (StartOutcome.startup_failure, ([] : List Attempt).length + 1) ∧
    ([] : List Attempt).length + 1 ≤ 50 :=
  startup_exit_detection.1 [] [] { exited := true, line := none } rfl
    (by decide) (by simp)

/-! ## C9 -/

/-- C9: `stop` is idempotent for all three clients: stopping an
already-stopped client (process handle `None`) is a no-op that changes
no client state, and two consecutive stops leave the client exactly as
a single stop does. -/
theorem stop_idempotent_all_clients :
    (∀ c : SimpleClientState,
       simple_stop_server (simple_stop_server c) = simple_stop_server c ∧
       (c.server_process = none → simple_stop_server c = c)) ∧
    (∀ c : FixedClientState,
       fixed_stop_server (fixed_stop_server c) = fixed_stop_server c ∧
       (c.server_process = none → fixed_stop_server c = c)) ∧
    (∀ c : HttpClientState,
       http_stop_service (http_stop_service c) = http_stop_service c ∧
       (c.service_process = none → http_stop_service c = c)) := by
  refine ⟨fun c => ⟨?_, ?_⟩, fun c => ⟨?_, ?_⟩, fun c => ⟨?_, ?_⟩⟩
  · cases h : c.server_process <;> simp [simple_stop_server, h]
  · intro h; simp [simple_stop_server, h]
  · cases h : c.server_process <;> simp [fixed_stop_server, h]
  · intro h; simp [fixed_stop_server, h]
  · cases h : c.service_process <;> simp [http_stop_service, h]
  · intro h; simp [http_stop_service, h]

/-- Witness for C9: stopping an already-stopped line client changes
nothing. -/
theorem stop_idempotent_all_clients_witness :
    simple_stop_server
        { server_script := "mcp_gpio_server.py", server_process := none, request_id := 0 } =
      { server_script := "mcp_gpio_server.py", server_process := none, request_id := 0 } :=
  (stop_idempotent_all_clients.1
    { server_script := "mcp_gpio_server.py", server_process := none, request_id := 0 }).2 rfl

end GpioRepo
